import Mathlib

/-!
Verification of the telco-classification utilities against their
specification.  The Python modules `src/util/acquire.py`,
`src/util/prepare.py` and `src/util/model.py` are shallowly embedded:
tables are row-major lists of rows, each row carrying its pandas index
label; cell values are strings or rationals; fallible operations return
`Except PyErr`; file and database effects are made explicit as values
threaded through the functions.
-/

namespace Telco

/-- Python exceptions that the embedded operations can raise. -/
inductive PyErr where
  | nameError (name : String)
  | keyError (key : String)
  | attributeError (attr : String)
  | valueError (msg : String)
  | indexError
  deriving DecidableEq, Repr

/-- Equality of embedded fallible results is decidable, so concrete runs
can be checked by evaluation. -/
instance exceptDecEq {ε α : Type} [DecidableEq ε] [DecidableEq α] :
    DecidableEq (Except ε α) := fun a b =>
  match a, b with
  | Except.ok x, Except.ok y =>
    if h : x = y then isTrue (by rw [h]) else isFalse (by intro hc; cases hc; exact h rfl)
  | Except.error e, Except.error f =>
    if h : e = f then isTrue (by rw [h]) else isFalse (by intro hc; cases hc; exact h rfl)
  | Except.ok _, Except.error _ => isFalse (by intro hc; cases hc)
  | Except.error _, Except.ok _ => isFalse (by intro hc; cases hc)

/-- A pandas cell value: an `object` (string) cell or a numeric cell. -/
inductive Val where
  | s (x : String)
  | n (x : ℚ)
  deriving DecidableEq, Repr

/-- A pandas DataFrame: column names plus rows, each row carrying its
index label. -/
structure DF where
  header : List String
  rows : List (Int × List Val)
  deriving DecidableEq, Repr

/-- A pandas Series: an index plus the values. -/
structure Series (α : Type) where
  index : List Int
  values : List α
  deriving DecidableEq, Repr

/-- The `size` attribute of a pandas Series. -/
def Series.size {α : Type} (s : Series α) : Nat := s.values.length

/-- Position of the first column with the given name. -/
def colIdxAux (c : String) : List String → Option Nat
  | [] => none
  | h :: t => if h = c then some 0 else (colIdxAux c t).map (· + 1)

/-- Position of a column in a frame, `none` when the name is absent. -/
def DF.colIdx (df : DF) (c : String) : Option Nat := colIdxAux c df.header

/-- Values of a named column, `none` when the name is absent. -/
def DF.getCol (df : DF) (c : String) : Option (List Val) :=
  (df.colIdx c).map fun i => df.rows.map fun r => r.2.getD i (Val.s "")

/-- Models the column assignment `df[c] = vals`: overwrite the column in
place when the name exists, otherwise append a new column. -/
def DF.setCol (df : DF) (c : String) (vals : List Val) : DF :=
  match df.colIdx c with
  | some i => ⟨df.header, (df.rows.zip vals).map fun p => (p.1.1, p.1.2.set i p.2)⟩
  | none => ⟨df.header ++ [c], (df.rows.zip vals).map fun p => (p.1.1, p.1.2 ++ [p.2])⟩

/-- First-occurrence duplicate removal (the order pandas keeps rows and
unique values in). -/
def dedupFirst {α : Type} [DecidableEq α] : List α → List α
  | [] => []
  | a :: t => a :: (dedupFirst t).filter (fun x => !(x == a))

/-- Helper for `DF.dropDuplicates`: drop any row whose cell values were
seen earlier. -/
def dropDupAux : List (Int × List Val) → List (List Val) → List (Int × List Val)
  | [], _ => []
  | r :: rs, seen =>
    if r.2 ∈ seen then dropDupAux rs seen else r :: dropDupAux rs (r.2 :: seen)

/-- Models `df.drop_duplicates()`: keep the first occurrence of each row. -/
def DF.dropDuplicates (df : DF) : DF := ⟨df.header, dropDupAux df.rows []⟩

/-- The four columns dropped by `_drop_useless_columns` in prepare.py. -/
def cols_to_drop : List String :=
  ["customer_id", "contract_type_id", "internet_service_type_id", "payment_type_id"]

/-- Embedding of `_drop_useless_columns` in prepare.py: `df.drop(columns=...)`
removes the four identifier columns and raises a `KeyError` when any of them
is absent. -/
def _drop_useless_columns (df : DF) : Except PyErr DF :=
  if cols_to_drop.all (fun c => df.header.contains c) then
    Except.ok ⟨df.header.filter (fun h => !cols_to_drop.contains h),
      df.rows.map fun r =>
        (r.1, ((df.header.zip r.2).filter (fun p => !cols_to_drop.contains p.1)).map Prod.snd)⟩
  else Except.error (PyErr.keyError "labels not found in axis")

/-- Digits of a decimal literal to a natural number. -/
def digitsToNat? (cs : List Char) : Option Nat :=
  cs.foldlM (fun acc c => if c.isDigit then some (acc * 10 + (c.toNat - 48)) else none) 0

/-- Models Python `float(x)` for plain decimal literals: optional sign,
digits with an optional fractional part, surrounding whitespace allowed;
any other string raises `ValueError`. -/
def parseFloat? (x : String) : Option ℚ :=
  let sp : Char := Char.ofNat 32
  let dot : Char := Char.ofNat 46
  let cs0 := ((x.data.dropWhile (· == sp)).reverse.dropWhile (· == sp)).reverse
  let p : Bool × List Char :=
    match cs0 with
    | c :: rest => if c == Char.ofNat 45 then (true, rest) else (false, cs0)
    | [] => (false, [])
  if p.2.any Char.isDigit && p.2.all (fun c => c.isDigit || c == dot) then
    match p.2.span (fun c => !(c == dot)) with
    | (a, []) => (digitsToNat? a).map fun m => if p.1 then -(m : ℚ) else (m : ℚ)
    | (a, _ :: b) =>
      if b.all (fun c => !(c == dot)) then do
        let ia ← digitsToNat? a
        let ib ← digitsToNat? b
        let q : ℚ := (ia : ℚ) + (ib : ℚ) / ((10 : ℚ) ^ b.length)
        some (if p.1 then -q else q)
      else none
  else none

/-- Models `astype(float)` on one cell. -/
def astypeFloat (v : Val) : Except PyErr Val :=
  match v with
  | Val.n q => Except.ok (Val.n q)
  | Val.s x =>
    match parseFloat? x with
    | some q => Except.ok (Val.n q)
    | none => Except.error (PyErr.valueError x)

/-- Embedding of `_remove_missing_values` in prepare.py: keep the rows whose
`tenure` cell differs from the number 0, then coerce the `total_charges`
column to float.  Attribute access on a missing column raises. -/
def _remove_missing_values (df : DF) : Except PyErr DF := do
  let ti ← match df.colIdx "tenure" with
    | some i => Except.ok i
    | none => Except.error (PyErr.attributeError "tenure")
  let df1 : DF := ⟨df.header, df.rows.filter fun r => !(r.2.getD ti (Val.s "") == Val.n 0)⟩
  let ci ← match df1.colIdx "total_charges" with
    | some i => Except.ok i
    | none => Except.error (PyErr.attributeError "total_charges")
  let vals ← df1.rows.mapM fun r => astypeFloat (r.2.getD ci (Val.s ""))
  Except.ok (df1.setCol "total_charges" vals)

/-- The seven service columns listed in `_combine_duplicate_values`. -/
def service_columns : List String :=
  ["multiple_lines", "online_security", "online_backup", "device_protection",
   "tech_support", "streaming_tv", "streaming_movies"]

/-- Names bound at module scope by the import statements of prepare.py,
which are exactly `import pandas as pd` and
`from sklearn.model_selection import train_test_split`.  No statement in
the module binds the name `np`, although `_combine_duplicate_values`
refers to `np.where`. -/
def prepare_module_imports : List String := ["pd", "train_test_split"]

/-- One iteration of the loop body
`df[column] = np.where(df[column] == 'Yes', 'Yes', 'No')`, given that the
name `np` resolved: every cell equal to the string `Yes` stays `Yes` and
every other cell becomes `No`. -/
def whereYesNo (df : DF) (c : String) : Except PyErr DF :=
  match df.colIdx c with
  | none => Except.error (PyErr.keyError c)
  | some i =>
    Except.ok (df.setCol c (df.rows.map fun r =>
      if r.2.getD i (Val.s "") = Val.s "Yes" then Val.s "Yes" else Val.s "No"))

/-- Embedding of `_combine_duplicate_values` in prepare.py.  Python resolves
the name `np` against the module scope when the loop body first runs; since
prepare.py never imports numpy, the call raises `NameError` before touching
the frame. -/
def _combine_duplicate_values (df : DF) : Except PyErr DF :=
  if prepare_module_imports.contains "np" then
    service_columns.foldlM whereYesNo df
  else
    Except.error (PyErr.nameError "np")

/-- A column has pandas dtype `object` when its cells are strings. -/
def isObjectCol (vals : List Val) : Bool :=
  vals.all fun v => match v with | Val.s _ => true | Val.n _ => false

/-- The cell ordering numpy applies when pandas sorts mode candidates or
`get_dummies` categories; in this dataset the sorted cells are always of
one kind and compare by their payload. -/
def Val.leb : Val → Val → Bool
  | Val.s a, Val.s b => decide (a.data ≤ b.data)
  | Val.n a, Val.n b => decide (a ≤ b)
  | Val.s _, Val.n _ => false
  | Val.n _, Val.s _ => true

/-- The name fragment a categorical cell contributes to a dummy column. -/
def Val.asString : Val → String
  | Val.s a => a
  | Val.n _ => ""

/-- Sorted distinct categories of a column, the order `pd.get_dummies`
generates indicator columns in. -/
def categoriesOf (vals : List Val) : List Val :=
  (dedupFirst vals).insertionSort fun a b => Val.leb a b = true

/-- Embedding of `_encode_categorical_features` in prepare.py: for every
`object`-dtype column, append one indicator column per category beyond the
first (`drop_first=True`), named `column_value`, holding 1 or 0. -/
def _encode_categorical_features (df : DF) : DF :=
  let catInfo := (df.header.enum.filter fun p =>
      isObjectCol (df.rows.map fun r => r.2.getD p.1 (Val.s ""))).map
    fun p => (p.1, p.2, (categoriesOf (df.rows.map fun r => r.2.getD p.1 (Val.s ""))).drop 1)
  let dummyHeader := catInfo.flatMap fun q => q.2.2.map fun v => q.2.1 ++ "_" ++ v.asString
  ⟨df.header ++ dummyHeader,
    df.rows.map fun r =>
      (r.1, r.2 ++ catInfo.flatMap fun q =>
        q.2.2.map fun v => Val.n (if r.2.getD q.1 (Val.s "") = v then 1 else 0))⟩

/-- Column-name cleaning of `_clean_column_names`: spaces to underscores,
lowercase, parentheses removed. -/
def cleanName (x : String) : String :=
  (((x.replace " " "_").toLower).replace "(" "").replace ")" ""

/-- Embedding of `_clean_column_names` in prepare.py. -/
def _clean_column_names (df : DF) : DF := ⟨df.header.map cleanName, df.rows⟩

/-- Embedding of `prep_telco_data` in prepare.py: the six preparation
stages in source order. -/
def prep_telco_data (df : DF) : Except PyErr DF := do
  let df0 := df.dropDuplicates
  let df1 ← _drop_useless_columns df0
  let df2 ← _remove_missing_values df1
  let df3 ← _combine_duplicate_values df2
  let df4 := _encode_categorical_features df3
  Except.ok (_clean_column_names df4)

/-- Header of a small raw telco table containing the identifier columns,
tenure and charges, the seven service columns and the churn label. -/
def exHeader : List String :=
  ["customer_id", "contract_type_id", "internet_service_type_id", "payment_type_id",
   "tenure", "total_charges", "multiple_lines", "online_security", "online_backup",
   "device_protection", "tech_support", "streaming_tv", "streaming_movies", "churn"]

/-- One valid customer row for `exHeader`. -/
def exRow1 : List Val :=
  [Val.s "0001-A", Val.n 1, Val.n 1, Val.n 1, Val.n 1, Val.s "100.5",
   Val.s "No", Val.s "Yes", Val.s "No", Val.s "No internet service",
   Val.s "No", Val.s "Yes", Val.s "No phone service", Val.s "No"]

/-- A one-row raw telco table. -/
def exDF1 : DF := ⟨exHeader, [(0, exRow1)]⟩

/-- A second customer row for `exHeader`, with zero tenure and a blank
`total_charges` cell, as the raw dataset contains. -/
def exRow2 : List Val :=
  [Val.s "0002-B", Val.n 2, Val.n 1, Val.n 2, Val.n 0, Val.s " ",
   Val.s "Yes", Val.s "No", Val.s "No", Val.s "Yes",
   Val.s "No internet service", Val.s "No", Val.s "Yes", Val.s "Yes"]

/-- A two-row raw telco table. -/
def exDF2 : DF := ⟨exHeader, [(0, exRow1), (1, exRow2)]⟩

/-- A 64-bit linear congruential step, the pseudo-random core of the
embedded shuffle. -/
def lcg (x : Nat) : Nat := (6364136223846793005 * x + 1442695040888963407) % 2 ^ 64

/-- Pseudo-random sort key of position `i` under a seed. -/
def randKey (seed i : Nat) : Nat := lcg (seed + lcg i)

/-- Seeded shuffle, modelled as sorting positions by a pseudo-random key;
a permutation of the input for every seed. -/
def seededShuffle {α : Type} (seed : Nat) (l : List α) : List α :=
  (l.enum.insertionSort fun a b => randKey seed a.1 ≤ randKey seed b.1).map Prod.snd

/-- Embedding of `sklearn.model_selection.train_test_split` with
stratification (a one-split `StratifiedShuffleSplit`).  The validity
checks are sklearn's: every class of the stratification key needs at
least two members, and each side of the split must be able to hold one
member of each class.  A valid call shuffles the rows by the effective
seed and takes `nTest` of them as the test side; sklearn balances the
test rows across classes, which only moves rows between positions of the
same shuffle and does not affect the partition, size and determinism
properties proved below, so it is folded into the seeded shuffle.  The
`entropy` argument models the process-level randomness sklearn falls back
to when `random_state` is `None`; the repository always passes a seed. -/
def train_test_split {α β : Type} [DecidableEq β] (entropy : Nat) (rows : List α)
    (strat : α → β) (nTest : Nat) (random_state : Option Nat) :
    Except String (List α × List α) :=
  let seed := random_state.getD entropy
  let classes := (rows.map strat).dedup
  if classes.any fun k => decide ((rows.filter fun r => decide (strat r = k)).length < 2) then
    Except.error "The least populated class in y has only 1 member"
  else if nTest < classes.length ∨ rows.length - nTest < classes.length then
    Except.error "The train or test size is smaller than the number of classes"
  else
    let sh := seededShuffle seed rows
    Except.ok (sh.drop nTest, sh.take nTest)

/-- Embedding of `split_data` in prepare.py: split off `ceil(0.2·n)` rows
as test, then `ceil(0.3·m)` of the remaining `m` rows as validate, both
stratified on the same key and seeded with the same `random_seed`. -/
def split_data {α β : Type} [DecidableEq β] (entropy : Nat) (df : List α)
    (strat : α → β) (random_seed : Nat) :
    Except String (List α × List α × List α) := do
  let nTest := (df.length + 4) / 5
  let p ← train_test_split entropy df strat nTest (some random_seed)
  let nVal := (3 * p.1.length + 9) / 10
  let q ← train_test_split entropy p.1 strat nVal (some random_seed)
  Except.ok (q.1, q.2, p.2)

/-- The cache file name `_telco_file` in acquire.py. -/
def _telco_file : String := "telco.csv"

/-- The database name `_telco_db` in acquire.py. -/
def _telco_db : String := "telco_churn"

/-- Embedding of `get_db_url` in acquire.py. -/
def get_db_url (database_name username password hostname : String) : String :=
  "mysql+pymysql://" ++ username ++ ":" ++ password ++ "@" ++ hostname ++ "/" ++ database_name

/-- Embedding of `_get_telco_sql` in acquire.py: the fixed four-way join
query. -/
def _get_telco_sql : String :=
  "\n        SELECT *\n        FROM customers\n        JOIN payment_types USING (payment_type_id)\n        JOIN internet_service_types USING (internet_service_type_id)\n        JOIN contract_types USING (contract_type_id);\n    "

/-- The environment `get_telco_data` runs in: the relational source (a
table per (query, url) pair), the parsed contents of `telco.csv` when
that file exists, and the module-scope credentials (empty strings when no
`env.py` is present). -/
structure AcqEnv where
  source : String → String → DF
  cache : Option DF
  username : String := ""
  password : String := ""
  hostname : String := ""

/-- What a run of `get_telco_data` produced: the returned table, the
cache file contents afterwards, and the (query, url) pairs executed
against the relational source, in order. -/
structure AcqResult where
  table : DF
  cache : Option DF
  queries : List (String × String)

/-- Embedding of `get_telco_data` in acquire.py: when the cache file
exists and `use_cache` holds, parse and return it; otherwise run the
fixed query against the source, write the result to the cache file, and
return it. -/
def get_telco_data (use_cache : Bool) (env : AcqEnv) : AcqResult :=
  if env.cache.isSome && use_cache then
    ⟨env.cache.getD ⟨[], []⟩, env.cache, []⟩
  else
    let url := get_db_url _telco_db env.username env.password env.hostname
    let d := env.source _get_telco_sql url
    ⟨d, some d, [(_get_telco_sql, url)]⟩

/-- Count of a value in a list. -/
def countVal {α : Type} [DecidableEq α] (l : List α) (v : α) : Nat :=
  l.countP fun x => decide (x = v)

/-- The largest frequency any value attains in the list. -/
def maxCount {α : Type} [DecidableEq α] (l : List α) : Nat :=
  (l.map (countVal l)).foldr max 0

/-- The distinct values attaining the largest frequency. -/
def modeCandidates {α : Type} [DecidableEq α] (l : List α) : List α :=
  (dedupFirst l).filter fun v => decide (countVal l v = maxCount l)

/-- Embedding of `Series.mode()`: pandas collects the most frequent
values and sorts them ascending (`np.sort`) before returning them. -/
def seriesMode {α : Type} [DecidableEq α] (le : α → α → Bool) (l : List α) : List α :=
  (modeCandidates l).insertionSort fun a b => le a b = true

/-- Embedding of `create_baseline_model` in model.py: `column.mode()[0]`
(a `KeyError`, hence `none`, on an empty column) broadcast with
`pd.Series([v] * column.size)`, which carries a fresh default integer
index `0..n-1` whatever the input index was.  The `le` argument is the
cell ordering numpy sorts the mode candidates with. -/
def create_baseline_model {α : Type} [DecidableEq α] (le : α → α → Bool)
    (column : Series α) : Option (Series α) :=
  match (seriesMode le column.values).head? with
  | none => none
  | some m => some ⟨(List.range column.size).map Int.ofNat, List.replicate column.size m⟩

/-- One row of the frame `measure_model_performance` builds; the model
label is the position of the prediction set or the caller-supplied name. -/
structure ScoreRow where
  model : Nat ⊕ String
  accuracy : ℚ
  precisionVal : ℚ
  recallVal : ℚ
  deriving DecidableEq, Repr

/-- Embedding of `sklearn.metrics.accuracy_score`: the fraction of
positions where the prediction matches the truth. -/
def accuracy_score {α : Type} [DecidableEq α] (y_true y_pred : List α) : ℚ :=
  (((y_true.zip y_pred).countP fun x => decide (x.1 = x.2) : ℕ) : ℚ) / (y_true.length : ℚ)

/-- Embedding of `sklearn.metrics.precision_score` for a binary problem
with an explicit `zero_division` result. -/
def precision_score {α : Type} [DecidableEq α] (y_true y_pred : List α) (pos : α)
    (zero_division : ℚ) : ℚ :=
  let tp := (y_true.zip y_pred).countP fun x => decide (x.1 = pos) && decide (x.2 = pos)
  let pp := y_pred.countP fun x => decide (x = pos)
  if pp = 0 then zero_division else (tp : ℚ) / (pp : ℚ)

/-- Embedding of `sklearn.metrics.recall_score` for a binary problem with
an explicit `zero_division` result. -/
def recall_score {α : Type} [DecidableEq α] (y_true y_pred : List α) (pos : α)
    (zero_division : ℚ) : ℚ :=
  let tp := (y_true.zip y_pred).countP fun x => decide (x.1 = pos) && decide (x.2 = pos)
  let ap := y_true.countP fun x => decide (x = pos)
  if ap = 0 then zero_division else (tp : ℚ) / (ap : ℚ)

/-- Embedding of `measure_model_performance` in model.py: score each
prediction set with accuracy, precision and recall, all with
`zero_division = 0`, labelling it by its position, or by `labels[index]`
when a non-empty label list is given (`labels[index]` raises `IndexError`
when the list is too short; sklearn raises `ValueError` on a length
mismatch between truth and predictions). -/
def measure_model_performance {α : Type} [DecidableEq α] (y_true : List α)
    (y_pred : List (List α)) (positive_label : α) (labels : Option (List String)) :
    Except PyErr (List ScoreRow) :=
  y_pred.enum.mapM fun p => do
    if y_true.length ≠ p.2.length then
      Except.error (PyErr.valueError "inconsistent numbers of samples")
    let name ← match labels with
      | none => Except.ok (Sum.inl p.1)
      | some [] => Except.ok (Sum.inl p.1)
      | some ls =>
        match ls.get? p.1 with
        | some x => Except.ok (Sum.inr x)
        | none => Except.error PyErr.indexError
    Except.ok ⟨name, accuracy_score y_true p.2,
      precision_score y_true p.2 positive_label 0,
      recall_score y_true p.2 positive_label 0⟩

/-- The fixed feature subset of `split_into_X_and_y` in model.py. -/
def features : List String :=
  ["monthly_charges", "tenure", "contract_type_one_year", "contract_type_two_year",
   "payment_type_credit_card_automatic", "payment_type_electronic_check",
   "payment_type_mailed_check"]

/-- Column selection `df[cols]`: a `KeyError` when any name is absent. -/
def DF.selectCols (df : DF) (cs : List String) : Except PyErr DF := do
  let idxs ← cs.mapM fun c =>
    match df.colIdx c with
    | some i => Except.ok i
    | none => Except.error (PyErr.keyError c)
  Except.ok ⟨cs, df.rows.map fun r => (r.1, idxs.map fun i => r.2.getD i (Val.s ""))⟩

/-- Embedding of `split_into_X_and_y` in model.py: the feature frame and
the churn column as a Series carrying the frame's index. -/
def split_into_X_and_y (df : DF) : Except PyErr (DF × Series Val) := do
  let X ← df.selectCols features
  let ci ← match df.colIdx "churn" with
    | some i => Except.ok i
    | none => Except.error (PyErr.attributeError "churn")
  Except.ok (X, ⟨df.rows.map Prod.fst, df.rows.map fun r => r.2.getD ci (Val.s "")⟩)

/-- The sklearn classifier constructions appearing in `create_models`,
with the hyperparameters the source passes; constructor arguments the
source leaves out keep their sklearn defaults and are omitted. -/
inductive Classifier where
  | decisionTree (max_depth : Option Nat) (random_state : Option Nat)
  | randomForest (max_depth : Option Nat) (random_state : Option Nat)
  | kNeighbors (n_neighbors : Nat) (weights : String)
  deriving DecidableEq, Repr

/-- A value of the models dictionary: the `None` placeholder, a
classifier fitted on its training data, or (once
`visualize_performance_of_models` has run) the baseline prediction
Series. -/
inductive ModelEntry where
  | noneEntry
  | fitted (c : Classifier) (X : DF) (y : Series Val)
  | series (s : Series Val)
  deriving DecidableEq, Repr

/-- Embedding of `create_models` in model.py: fit a depth-5 decision
tree, a depth-5 random forest and a uniform-weighted 10-neighbor
classifier on the fixed feature subset, and return the name-keyed
dictionary with the `Baseline` placeholder. -/
def create_models (df : DF) (random_seed : Nat) :
    Except PyErr (List (String × ModelEntry)) := do
  let p ← split_into_X_and_y df
  let model_1 := Classifier.decisionTree (some 5) (some random_seed)
  let model_2 := Classifier.randomForest (some 5) (some random_seed)
  let model_3 := Classifier.kNeighbors 10 "uniform"
  Except.ok [("Baseline", ModelEntry.noneEntry),
    ("Decision Tree", ModelEntry.fitted model_1 p.1 p.2),
    ("Random Forest", ModelEntry.fitted model_2 p.1 p.2),
    ("K Nearest Neighbors", ModelEntry.fitted model_3 p.1 p.2)]

/-- Dictionary assignment `m[k] = v`: replace the entry when the key
exists, else append it. -/
def updateEntry (m : List (String × ModelEntry)) (k : String) (v : ModelEntry) :
    List (String × ModelEntry) :=
  if m.any fun p => p.1 == k then
    m.map fun p => if p.1 = k then (k, v) else p
  else m ++ [(k, v)]

/-- Dictionary lookup `m[k]`: a `KeyError` when the key is absent. -/
def lookupEntry (m : List (String × ModelEntry)) (k : String) :
    Except PyErr ModelEntry :=
  match m.find? fun p => p.1 == k with
  | some p => Except.ok p.2
  | none => Except.error (PyErr.keyError k)

/-- Calling `.predict(X)` on a dictionary value: only a fitted classifier
has a `predict` attribute; the numeric computation itself is the ambient
`predict` function the embedding is parameterized by. -/
def predictEntry (predict : Classifier → DF → Series Val → DF → List Val)
    (e : ModelEntry) (X : DF) : Except PyErr (List Val) :=
  match e with
  | ModelEntry.fitted c Xtr ytr => Except.ok (predict c Xtr ytr X)
  | _ => Except.error (PyErr.attributeError "predict")

/-- Python `column.mode()[0]` as used by `visualize_performance_of_models`
to build the baseline: the baseline Series, or the `KeyError` raised by
indexing an empty mode result. -/
def baselineOrKeyError (y : Series Val) : Except PyErr (Series Val) :=
  match create_baseline_model Val.leb y with
  | some x => Except.ok x
  | none => Except.error (PyErr.keyError "0")

/-- Embedding of `visualize_performance_of_models` in model.py,
parameterized by the sklearn prediction semantics `predict`.  The result
pairs the metrics frame with the models dictionary as the call leaves
it, making the in-place assignment `models['Baseline'] = ...` explicit. -/
def visualize_performance_of_models
    (predict : Classifier → DF → Series Val → DF → List Val)
    (df : DF) (models : List (String × ModelEntry)) :
    Except PyErr (List ScoreRow × List (String × ModelEntry)) := do
  let p ← split_into_X_and_y df
  let baseline ← baselineOrKeyError p.2
  let models1 := updateEntry models "Baseline" (ModelEntry.series baseline)
  let dt ← lookupEntry models1 "Decision Tree"
  let dtPred ← predictEntry predict dt p.1
  let rf ← lookupEntry models1 "Random Forest"
  let rfPred ← predictEntry predict rf p.1
  let kn ← lookupEntry models1 "K Nearest Neighbors"
  let knPred ← predictEntry predict kn p.1
  let metrics ← measure_model_performance p.2.values
    [baseline.values, dtPred, rfPred, knPred] (Val.s "Yes")
    (some (models1.map Prod.fst))
  Except.ok (metrics, models1)

/-- Inner join of two frames on one shared column name, in left-frame row
order, the join column kept once and the result reindexed from 0, as
`DataFrame.merge` produces. -/
def mergeOn (a b : DF) (c : String) : DF :=
  let ia := (a.colIdx c).getD 0
  let ib := (b.colIdx c).getD 0
  let bKeep := b.header.enum.filter fun p => !(p.2 == c)
  ⟨a.header ++ bKeep.map Prod.snd,
    ((a.rows.flatMap fun ra =>
      (b.rows.filter fun rb => rb.2.getD ib (Val.s "") == ra.2.getD ia (Val.s "")).map
        fun rb => ra.2 ++ bKeep.map fun p => rb.2.getD p.1 (Val.s "")).enum.map
      fun p => ((p.1 : Int), p.2))⟩

/-- Embedding of `write_predictions_to_file` in model.py.  The first
component is the frame handed to `to_csv` (the contents of
`predictions.csv`); the second is the `customers` frame as the call
leaves it: the statement `customers['index'] = customers.index` stores
the index of the caller's frame into one of its columns, in place. -/
def write_predictions_to_file (y : Series Val) (prob : List (ℚ × ℚ))
    (pred : List Val) (customers : DF) : Except PyErr (DF × DF) := do
  let predictions : DF :=
    ⟨["index", "probability", "prediction"],
      (y.index.zip (prob.zip pred)).enum.map fun p =>
        ((p.1 : Int), [Val.n ((p.2.1 : ℤ) : ℚ), Val.n p.2.2.1.2, p.2.2.2])⟩
  let customers1 := customers.setCol "index" (customers.rows.map fun r => Val.n (r.1 : ℚ))
  let merged := mergeOn customers1 predictions "index"
  let outFrame ← merged.selectCols ["customer_id", "probability", "prediction"]
  Except.ok (outFrame, customers1)

/-- Calling `.predict_proba(X)` on a dictionary value: only a fitted
classifier has the attribute; the numeric computation is the ambient
`proba` function the embedding is parameterized by. -/
def probaEntry (proba : Classifier → DF → Series Val → DF → List (ℚ × ℚ))
    (e : ModelEntry) (X : DF) : Except PyErr (List (ℚ × ℚ)) :=
  match e with
  | ModelEntry.fitted c Xtr ytr => Except.ok (proba c Xtr ytr X)
  | _ => Except.error (PyErr.attributeError "predict_proba")

/-- Embedding of `make_predictions_on_test` in model.py, parameterized by
the sklearn prediction semantics.  Returns the metrics frame, the
predictions file contents, and `original_df` as the call leaves it. -/
def make_predictions_on_test
    (predict : Classifier → DF → Series Val → DF → List Val)
    (predict_proba : Classifier → DF → Series Val → DF → List (ℚ × ℚ))
    (df original_df : DF) (model : ModelEntry) :
    Except PyErr (List ScoreRow × DF × DF) := do
  let p ← split_into_X_and_y df
  let pr ← predictEntry predict model p.1
  let metrics ← measure_model_performance p.2.values [pr] (Val.s "Yes")
    (some ["Decision Tree"])
  let proba ← probaEntry predict_proba model p.1
  let w ← write_predictions_to_file p.2 proba pr original_df
  Except.ok (metrics, w.1, w.2)

/-- The string ordering numpy's sort uses on an array of Python strings
(lexicographic, compared on the character lists). -/
def strLe (a b : String) : Bool := decide (a.data ≤ b.data)

/-- Modelled from the spec's words for the baseline claim: the most
frequent value with ties broken in first-encountered order, to be
compared with the sorted tie-breaking the source inherits from pandas. -/
def firstEncounteredMode {α : Type} [DecidableEq α] (l : List α) : Option α :=
  (l.filter fun v => decide (countVal l v = maxCount l)).head?

/-- The hyperparameter reading of a models-dictionary entry: the
classifier construction when the entry is a fitted model. -/
def entrySpec : ModelEntry → Option Classifier
  | ModelEntry.fitted c _ _ => some c
  | _ => none

/-- A series with two equally frequent values whose first-encountered
order and sorted order differ. -/
def tieSeries : Series String := ⟨[0, 1], ["b", "a"]⟩

/-- A prepared two-customer table holding exactly the fixed feature
subset and the churn label. -/
def exModelDF : DF :=
  ⟨["monthly_charges", "tenure", "contract_type_one_year", "contract_type_two_year",
    "payment_type_credit_card_automatic", "payment_type_electronic_check",
    "payment_type_mailed_check", "churn"],
   [(0, [Val.n 50, Val.n 12, Val.n 0, Val.n 0, Val.n 0, Val.n 1, Val.n 0, Val.s "No"]),
    (1, [Val.n 80, Val.n 2, Val.n 1, Val.n 0, Val.n 0, Val.n 0, Val.n 1, Val.s "Yes"])]⟩

/-- The feature frame `split_into_X_and_y` extracts from `exModelDF`. -/
def exX : DF :=
  ⟨features,
   [(0, [Val.n 50, Val.n 12, Val.n 0, Val.n 0, Val.n 0, Val.n 1, Val.n 0]),
    (1, [Val.n 80, Val.n 2, Val.n 1, Val.n 0, Val.n 0, Val.n 0, Val.n 1])]⟩

/-- The churn Series `split_into_X_and_y` extracts from `exModelDF`. -/
def exY : Series Val := ⟨[0, 1], [Val.s "No", Val.s "Yes"]⟩

/-- The models dictionary `create_models exModelDF 24` returns. -/
def models0 : List (String × ModelEntry) :=
  [("Baseline", ModelEntry.noneEntry),
   ("Decision Tree", ModelEntry.fitted (Classifier.decisionTree (some 5) (some 24)) exX exY),
   ("Random Forest", ModelEntry.fitted (Classifier.randomForest (some 5) (some 24)) exX exY),
   ("K Nearest Neighbors", ModelEntry.fitted (Classifier.kNeighbors 10 "uniform") exX exY)]

/-- A concrete prediction semantics: predict the negative label for every
row. -/
def predNo : Classifier → DF → Series Val → DF → List Val :=
  fun _ _ _ X => X.rows.map fun _ => Val.s "No"

/-- A concrete probability semantics: an even split for every row. -/
def probaHalf : Classifier → DF → Series Val → DF → List (ℚ × ℚ) :=
  fun _ _ _ X => X.rows.map fun _ => ((1 : ℚ) / 2, (1 : ℚ) / 2)

/-- A two-customer original table (one identifier column, default
integer index), as handed to `make_predictions_on_test`. -/
def custDF : DF := ⟨["customer_id"], [(0, [Val.s "0001"]), (1, [Val.s "0002"])]⟩

/-- Concrete class probabilities for the two customers. -/
def prob0 : List (ℚ × ℚ) := [((1 : ℚ) / 2, (1 : ℚ) / 2), ((1 : ℚ) / 4, (3 : ℚ) / 4)]

/-- Concrete predicted labels for the two customers. -/
def predv0 : List Val := [Val.s "No", Val.s "Yes"]

/-- A one-column table standing for parsed cache-file contents. -/
def dfA : DF := ⟨["x"], [(0, [Val.n 7])]⟩

/-- A one-column table standing for the relational source's answer. -/
def dfB : DF := ⟨["y"], [(0, [Val.n 8])]⟩

/-- A relational source returning `dfB` for every (query, url) pair. -/
def srcB : String → String → DF := fun _ _ => dfB

/-- An environment with a populated cache file. -/
def envHit : AcqEnv := ⟨srcB, some dfA, "", "", ""⟩

/-- An environment with no cache file. -/
def envMiss : AcqEnv := ⟨srcB, none, "u", "p", "h"⟩

/-- The `custDF` table after `write_predictions_to_file` has stored the
index into it. -/
def custPrime : DF :=
  ⟨["customer_id", "index"],
   [(0, [Val.s "0001", Val.n 0]), (1, [Val.s "0002", Val.n 1])]⟩

theorem exceptBind_ok {ε σ τ : Type} {x : Except ε σ} {f : σ → Except ε τ} {t : τ}
    (h : x >>= f = Except.ok t) : ∃ v, x = Except.ok v ∧ f v = Except.ok t := by
  cases x with
  | error e => exact absurd h (by simp [Bind.bind, Except.bind])
  | ok v => exact ⟨v, rfl, by simpa [Bind.bind, Except.bind] using h⟩

theorem exceptMap_ok {ε σ τ : Type} {x : Except ε σ} {f : σ → τ} {t : τ}
    (h : x.map f = Except.ok t) : ∃ v, x = Except.ok v ∧ f v = t := by
  cases x with
  | error e => exact absurd h (by simp [Except.map])
  | ok v => exact ⟨v, rfl, by simpa [Except.map] using h⟩

theorem seededShuffle_perm {α : Type} (seed : Nat) (l : List α) :
    (seededShuffle seed l).Perm l := by
  unfold seededShuffle
  have h := (List.perm_insertionSort
    (fun a b => randKey seed a.1 ≤ randKey seed b.1) l.enum).map Prod.snd
  rwa [List.enum_map_snd] at h

theorem train_test_split_ok {α β : Type} [DecidableEq β] {entropy : Nat} {rows : List α}
    {strat : α → β} {nTest : Nat} {rs : Option Nat} {tr te : List α}
    (h : train_test_split entropy rows strat nTest rs = Except.ok (tr, te)) :
    (tr ++ te).Perm rows ∧ te.length = min nTest rows.length ∧
      tr.length = rows.length - nTest ∧
      (rows ≠ [] → 1 ≤ nTest ∧ 1 ≤ rows.length - nTest) := by
  simp only [train_test_split] at h
  split_ifs at h with h1 h2
  rw [Except.ok.injEq, Prod.mk.injEq] at h
  obtain ⟨htr, hte⟩ := h
  subst htr
  subst hte
  have hlen : (seededShuffle (rs.getD entropy) rows).length = rows.length :=
    (seededShuffle_perm _ _).length_eq
  refine ⟨?_, ?_, ?_, ?_⟩
  · exact ((List.perm_append_comm).trans
      (List.Perm.of_eq (List.take_append_drop _ _))).trans (seededShuffle_perm _ _)
  · rw [List.length_take, hlen]
  · rw [List.length_drop, hlen]
  · intro hne
    push_neg at h2
    obtain ⟨r, rest, rfl⟩ := List.exists_cons_of_ne_nil hne
    have hcl : 1 ≤ ((r :: rest).map strat).dedup.length := by
      have : strat r ∈ ((r :: rest).map strat).dedup :=
        List.mem_dedup.mpr (List.mem_map_of_mem strat (List.mem_cons_self r rest))
      exact List.length_pos.mpr (List.ne_nil_of_mem this)
    exact ⟨le_trans hcl h2.1, le_trans hcl h2.2⟩

theorem mem_dedupFirst {α : Type} [DecidableEq α] {l : List α} {x : α} :
    x ∈ dedupFirst l ↔ x ∈ l := by
  induction l with
  | nil => simp [dedupFirst]
  | cons a t ih =>
    simp only [dedupFirst, List.mem_cons, List.mem_filter]
    constructor
    · rintro (rfl | ⟨hx, _⟩)
      · exact Or.inl rfl
      · exact Or.inr (ih.mp hx)
    · rintro (rfl | hx)
      · exact Or.inl rfl
      · by_cases hxa : x = a
        · exact Or.inl hxa
        · exact Or.inr ⟨ih.mpr hx, by simp [hxa]⟩

theorem le_foldr_max (ns : List Nat) (x : Nat) (hx : x ∈ ns) : x ≤ ns.foldr max 0 := by
  induction ns with
  | nil => cases hx
  | cons a t ih =>
    rcases List.mem_cons.mp hx with rfl | hxt
    · exact le_max_left _ _
    · exact le_trans (ih hxt) (le_max_right _ _)

theorem foldr_max_mem (ns : List Nat) (h : ns ≠ []) : ns.foldr max 0 ∈ ns := by
  induction ns with
  | nil => exact absurd rfl h
  | cons a t ih =>
    cases t with
    | nil => simp
    | cons b u =>
      rcases max_choice a ((b :: u).foldr max 0) with hm | hm
      · rw [List.foldr_cons, hm]
        exact List.mem_cons_self _ _
      · rw [List.foldr_cons, hm]
        exact List.mem_cons_of_mem _ (ih (by simp))

theorem countVal_le_maxCount {α : Type} [DecidableEq α] (l : List α) (v : α)
    (hv : v ∈ l) : countVal l v ≤ maxCount l :=
  le_foldr_max _ _ (List.mem_map_of_mem (countVal l) hv)

theorem maxCount_attained {α : Type} [DecidableEq α] (l : List α) (h : l ≠ []) :
    ∃ v ∈ l, countVal l v = maxCount l := by
  have hmem := foldr_max_mem (l.map (countVal l)) (by simpa using h)
  obtain ⟨v, hv, hveq⟩ := List.mem_map.mp hmem
  exact ⟨v, hv, hveq⟩

theorem mem_modeCandidates {α : Type} [DecidableEq α] {l : List α} {x : α} :
    x ∈ modeCandidates l ↔ x ∈ l ∧ countVal l x = maxCount l := by
  simp [modeCandidates, List.mem_filter, mem_dedupFirst]

theorem strLe_iff (a b : String) : strLe a b = true ↔ a ≤ b := by
  rw [strLe, decide_eq_true_eq, String.le_iff_toList_le]
  exact Iff.rfl

theorem strLe_trans {a b c : String} (h1 : strLe a b = true)
    (h2 : strLe b c = true) : strLe a c = true := by
  rw [strLe_iff] at h1 h2 ⊢
  exact le_trans h1 h2

theorem strLe_total (a b : String) : strLe a b = true ∨ strLe b a = true := by
  rw [strLe_iff, strLe_iff]
  exact le_total a b

theorem head_insertionSort_le (l : List String) (m : String)
    (hm : (l.insertionSort fun a b => strLe a b = true).head? = some m)
    (x : String) (hx : x ∈ l) : m ≤ x := by
  haveI : IsTrans String (fun a b => strLe a b = true) := ⟨fun _ _ _ => strLe_trans⟩
  haveI : IsTotal String (fun a b => strLe a b = true) := ⟨strLe_total⟩
  have hs := List.sorted_insertionSort (fun a b => strLe a b = true) l
  have hx2 : x ∈ l.insertionSort fun a b => strLe a b = true :=
    (List.mem_insertionSort _).mpr hx
  cases hL : l.insertionSort fun a b => strLe a b = true with
  | nil => rw [hL] at hm; cases hm
  | cons a t =>
    rw [hL] at hm hs hx2
    rw [List.head?_cons, Option.some.injEq] at hm
    rcases List.mem_cons.mp hx2 with h2 | hxt
    · rw [← hm, h2]
    · rw [← hm]
      exact (strLe_iff a x).mp (List.rel_of_sorted_cons hs x hxt)

theorem countP_zip_self {α : Type} [DecidableEq α] (l : List α) :
    (l.zip l).countP (fun x => decide (x.1 = x.2)) = l.length := by
  induction l with
  | nil => rfl
  | cons a t ih => simp [List.countP_cons, ih]

theorem countP_zip_self_pos {α : Type} [DecidableEq α] (l : List α) (pos : α) :
    (l.zip l).countP (fun x => decide (x.1 = pos) && decide (x.2 = pos)) =
      l.countP (fun x => decide (x = pos)) := by
  induction l with
  | nil => rfl
  | cons a t ih =>
    by_cases ha : a = pos <;> simp [List.countP_cons, ih, ha]

theorem countP_zip_right_zero {α : Type} [DecidableEq α] (t p : List α) (pos : α)
    (hp : pos ∉ p) :
    (t.zip p).countP (fun x => decide (x.1 = pos) && decide (x.2 = pos)) = 0 := by
  apply List.countP_eq_zero.mpr
  rintro ⟨u, v⟩ huv
  have hv : v ∈ p := (List.of_mem_zip huv).2
  have : v ≠ pos := fun hc => hp (hc ▸ hv)
  simp [this]

theorem accuracy_score_self {α : Type} [DecidableEq α] (l : List α) (h : l ≠ []) :
    accuracy_score l l = 1 := by
  unfold accuracy_score
  rw [countP_zip_self]
  have hne : (l.length : ℚ) ≠ 0 := by
    simpa using fun hc => h (List.length_eq_zero.mp hc)
  exact div_self hne

theorem precision_score_self {α : Type} [DecidableEq α] (l : List α) (pos : α)
    (h : pos ∈ l) : precision_score l l pos 0 = 1 := by
  unfold precision_score
  rw [countP_zip_self_pos]
  have hpp : l.countP (fun x => decide (x = pos)) ≠ 0 :=
    Nat.pos_iff_ne_zero.mp (List.countP_pos_iff.mpr ⟨pos, h, by simp⟩)
  rw [if_neg hpp]
  exact div_self (by exact_mod_cast hpp)

theorem recall_score_self {α : Type} [DecidableEq α] (l : List α) (pos : α)
    (h : pos ∈ l) : recall_score l l pos 0 = 1 := by
  unfold recall_score
  rw [countP_zip_self_pos]
  have hpp : l.countP (fun x => decide (x = pos)) ≠ 0 :=
    Nat.pos_iff_ne_zero.mp (List.countP_pos_iff.mpr ⟨pos, h, by simp⟩)
  rw [if_neg hpp]
  exact div_self (by exact_mod_cast hpp)

theorem precision_score_never {α : Type} [DecidableEq α] (t p : List α) (pos : α)
    (hp : pos ∉ p) : precision_score t p pos 0 = 0 := by
  unfold precision_score
  rw [if_pos (List.countP_eq_zero.mpr fun a ha => by
    have : a ≠ pos := fun hc => hp (hc ▸ ha)
    simp [this])]

theorem recall_score_never {α : Type} [DecidableEq α] (t p : List α) (pos : α)
    (hp : pos ∉ p) : recall_score t p pos 0 = 0 := by
  unfold recall_score
  rw [countP_zip_right_zero t p pos hp]
  by_cases hap : t.countP (fun x => decide (x = pos)) = 0 <;> simp [hap]

theorem colIdxAux_nil (c : String) : colIdxAux c [] = none := rfl

theorem colIdxAux_cons (c a : String) (t : List String) :
    colIdxAux c (a :: t) = if a = c then some 0 else (colIdxAux c t).map (· + 1) := rfl

theorem colIdxAux_get? {c : String} :
    ∀ {hs : List String} {i : Nat}, colIdxAux c hs = some i → hs.get? i = some c := by
  intro hs
  induction hs with
  | nil => intro i h; cases h
  | cons a t ih =>
    intro i h
    rw [colIdxAux_cons] at h
    split_ifs at h with ha
    · rw [Option.some.injEq] at h
      subst h
      simpa using ha
    · rw [Option.map_eq_some'] at h
      obtain ⟨j, hj, hji⟩ := h
      subst hji
      simpa using ih hj

theorem colIdxAux_lt {c : String} {hs : List String} {i : Nat}
    (h : colIdxAux c hs = some i) : i < hs.length := by
  by_contra hge
  have h2 := colIdxAux_get? h
  rw [List.get?_eq_none.mpr (by omega)] at h2
  cases h2

theorem colIdxAux_append_some {c : String} :
    ∀ {hs : List String} {i : Nat}, colIdxAux c hs = some i →
      ∀ ts, colIdxAux c (hs ++ ts) = some i := by
  intro hs
  induction hs with
  | nil => intro i h; cases h
  | cons a t ih =>
    intro i h ts
    rw [colIdxAux_cons] at h
    rw [List.cons_append, colIdxAux_cons]
    split_ifs at h ⊢ with ha
    · exact h
    · rw [Option.map_eq_some'] at h
      obtain ⟨j, hj, hji⟩ := h
      rw [ih hj ts]
      simpa using hji

theorem colIdxAux_append_none {c : String} :
    ∀ {hs : List String}, colIdxAux c hs = none →
      ∀ ts, colIdxAux c (hs ++ ts) = (colIdxAux c ts).map (· + hs.length) := by
  intro hs
  induction hs with
  | nil =>
    intro _ ts
    rw [List.nil_append]
    cases colIdxAux c ts <;> simp
  | cons a t ih =>
    intro h ts
    rw [colIdxAux_cons] at h
    have ha : ¬ a = c := by
      intro hc
      rw [if_pos hc] at h
      cases h
    rw [if_neg ha, Option.map_eq_none'] at h
    rw [List.cons_append, colIdxAux_cons, if_neg ha, ih h ts]
    cases colIdxAux c ts with
    | none => simp
    | some j => simp [List.length_cons]; omega

theorem zip_self_map {α β : Type} (l : List α) (f : α → β) :
    l.zip (l.map f) = l.map fun a => (a, f a) := by
  induction l with
  | nil => rfl
  | cons a t ih => simp [ih]

theorem setCol_rows_fst (df : DF) (c : String) (f : Int × List Val → Val) :
    ((df.setCol c (df.rows.map f)).rows).map Prod.fst = df.rows.map Prod.fst := by
  unfold DF.setCol
  cases df.colIdx c <;> simp [zip_self_map, List.map_map, Function.comp_def]

theorem getCol_setCol_ne (df : DF) (c c' : String) (f : Int × List Val → Val)
    (hwf : ∀ r ∈ df.rows, r.2.length = df.header.length) (hne : c' ≠ c) :
    (df.setCol c (df.rows.map f)).getCol c' = df.getCol c' := by
  unfold DF.setCol DF.getCol DF.colIdx
  cases hci : colIdxAux c df.header with
  | some i =>
    cases hci' : colIdxAux c' df.header with
    | none => simp
    | some j =>
      have hij : i ≠ j := by
        intro hc
        subst hc
        have h1 := colIdxAux_get? hci
        have h2 := colIdxAux_get? hci'
        rw [h1, Option.some.injEq] at h2
        exact hne h2.symm
      simp only [Option.map_some']
      rw [Option.some.injEq]
      rw [zip_self_map, List.map_map, List.map_map]
      apply List.map_congr_left
      intro r _
      simp only [Function.comp_def]
      rw [List.getD_eq_getElem?_getD, List.getD_eq_getElem?_getD,
        List.getElem?_set_ne hij]
  | none =>
    cases hci' : colIdxAux c' df.header with
    | none =>
      rw [colIdxAux_append_none hci' [c]]
      have hone : colIdxAux c' [c] = none := by
        rw [colIdxAux_cons, if_neg (fun hc => hne hc.symm), colIdxAux_nil]
        rfl
      simp [hone]
    | some j =>
      rw [colIdxAux_append_some hci' [c]]
      simp only [Option.map_some']
      rw [Option.some.injEq]
      rw [zip_self_map, List.map_map, List.map_map]
      apply List.map_congr_left
      intro r hr
      simp only [Function.comp_def]
      have hj : j < r.2.length := by
        rw [hwf r hr]
        exact colIdxAux_lt hci'
      rw [List.getD_eq_getElem?_getD, List.getD_eq_getElem?_getD,
        List.getElem?_append_left hj]

theorem find?_map_setEntry_ne (m : List (String × ModelEntry)) (k k' : String)
    (v : ModelEntry) (h : k' ≠ k) :
    (m.map fun p => if p.1 = k then (k, v) else p).find? (fun p => p.1 == k') =
      m.find? (fun p => p.1 == k') := by
  induction m with
  | nil => rfl
  | cons a t ih =>
    by_cases hak : a.1 = k
    · have h1 : ((k, v).1 == k') = false := beq_eq_false_iff_ne.mpr (Ne.symm h)
      have h2 : (a.1 == k') = false := beq_eq_false_iff_ne.mpr (by rw [hak]; exact Ne.symm h)
      rw [List.map_cons, if_pos hak, List.find?_cons_of_neg _ (by simp [h1]),
        List.find?_cons_of_neg _ (by simp [h2])]
      exact ih
    · rw [List.map_cons, if_neg hak]
      cases hq : (a.1 == k') with
      | true =>
        rw [List.find?_cons_of_pos _ (by simp [hq]), List.find?_cons_of_pos _ (by simp [hq])]
      | false =>
        rw [List.find?_cons_of_neg _ (by simp [hq]), List.find?_cons_of_neg _ (by simp [hq])]
        exact ih

theorem find?_append_singleton_ne (m : List (String × ModelEntry)) (k k' : String)
    (v : ModelEntry) (h : k' ≠ k) :
    (m ++ [(k, v)]).find? (fun p => p.1 == k') = m.find? (fun p => p.1 == k') := by
  rw [List.find?_append]
  have hnone : ([((k : String), v)].find? fun p => p.1 == k') = none := by
    rw [List.find?_cons_of_neg _ (by simp only [beq_iff_eq]; exact Ne.symm h)]
    rfl
  rw [hnone, Option.or_none]

theorem find?_updateEntry_ne (m : List (String × ModelEntry)) (k k' : String)
    (v : ModelEntry) (h : k' ≠ k) :
    (updateEntry m k v).find? (fun p => p.1 == k') = m.find? (fun p => p.1 == k') := by
  unfold updateEntry
  split_ifs with hany
  · exact find?_map_setEntry_ne m k k' v h
  · exact find?_append_singleton_ne m k k' v h

theorem measure_single {α : Type} [DecidableEq α] (y p : List α) (pos : α)
    (h : y.length = p.length) :
    measure_model_performance y [p] pos none =
      Except.ok [⟨Sum.inl 0, accuracy_score y p,
        precision_score y p pos 0, recall_score y p pos 0⟩] := by
  have henum : ([p].enum) = [(0, p)] := rfl
  unfold measure_model_performance
  rw [henum]
  simp [h, List.mapM.loop, Bind.bind, Except.bind, Pure.pure, Except.pure]

/-- C1: the claim says the seven service columns contain only the values
Yes and No after `_combine_duplicate_values`, and that the stage
completes without failure for every such input table.  It cannot:
prepare.py never imports numpy, so the reference to `np.where` raises a
`NameError` on every call.  Evaluated on a concrete raw table carrying
all seven service columns, both the stage and the whole `prep_telco_data`
pipeline fail with that `NameError`. -/
theorem c1_combine_stage_raises_nameerror :
    _combine_duplicate_values exDF1 = Except.error (PyErr.nameError "np") ∧
    prep_telco_data exDF1 = Except.error (PyErr.nameError "np") :=
  ⟨by decide, by decide⟩

/-- C9: the claim says `prep_telco_data` returns a table with no more
rows than its input and without the four identifier columns.  The
pipeline never returns at all: its fourth stage raises `NameError`
because prepare.py does not import numpy.  Evaluated on a concrete
two-row raw table (one regular customer, one zero-tenure customer with a
blank `total_charges` cell) the pipeline fails with that `NameError`
instead of producing a table. -/
theorem c9_prep_telco_data_raises_nameerror :
    prep_telco_data exDF2 = Except.error (PyErr.nameError "np") := by decide

/-- C2: a successful `split_data` produces three lists that partition the
input rows (their concatenation is a permutation of the input, so the row
sets are pairwise disjoint and their union is the input), with the test
side holding exactly `ceil(n/5)` rows, the validate side
`ceil(3·(n - |test|)/10)` rows, and the train side the rest, which is the
56/24/20 split of the spec. -/
theorem c2_split_data_partition {α β : Type} [DecidableEq β] (entropy : Nat)
    (df : List α) (strat : α → β) (seed : Nat) (tr va te : List α)
    (h : split_data entropy df strat seed = Except.ok (tr, va, te)) :
    (tr ++ va ++ te).Perm df ∧
    te.length = (df.length + 4) / 5 ∧
    va.length = (3 * (df.length - te.length) + 9) / 10 ∧
    tr.length = df.length - te.length - va.length := by
  unfold split_data at h
  obtain ⟨p, hp, h⟩ := exceptBind_ok h
  obtain ⟨q, hq, h⟩ := exceptBind_ok h
  rw [Except.ok.injEq, Prod.mk.injEq, Prod.mk.injEq] at h
  obtain ⟨h1, h2, h3⟩ := h
  subst h1
  subst h2
  subst h3
  obtain ⟨tv, te2⟩ := p
  obtain ⟨tr2, va2⟩ := q
  obtain ⟨perm1, hte, htv, hne1⟩ := train_test_split_ok hp
  obtain ⟨perm2, hva, htr, hne2⟩ := train_test_split_ok hq
  dsimp only at perm1 perm2 hte htv hva htr hne1 hne2 ⊢
  have hne1h : df.length = 0 ∨
      (1 ≤ (df.length + 4) / 5 ∧ 1 ≤ df.length - (df.length + 4) / 5) := by
    rcases Nat.eq_zero_or_pos df.length with h0 | hpos
    · exact Or.inl h0
    · exact Or.inr (hne1 (List.length_pos.mp hpos))
  have hne2h : tv.length = 0 ∨
      (1 ≤ (3 * tv.length + 9) / 10 ∧ 1 ≤ tv.length - (3 * tv.length + 9) / 10) := by
    rcases Nat.eq_zero_or_pos tv.length with h0 | hpos
    · exact Or.inl h0
    · exact Or.inr (hne2 (List.length_pos.mp hpos))
  refine ⟨(List.Perm.append perm2 (List.Perm.refl te2)).trans perm1, ?_, ?_, ?_⟩ <;>
    omega

/-- C2 witness: a concrete ten-row table with two equally frequent
stratification classes splits into 5, 3 and 2 rows that permute the
input. -/
theorem c2_split_data_partition_witness :
    (([2, 8, 5, 7, 1] ++ [3, 0, 6] ++ [4, 9] : List Nat)).Perm
      [0, 1, 2, 3, 4, 5, 6, 7, 8, 9] ∧
    ([4, 9] : List Nat).length =
      (([0, 1, 2, 3, 4, 5, 6, 7, 8, 9] : List Nat).length + 4) / 5 ∧
    ([3, 0, 6] : List Nat).length =
      (3 * (([0, 1, 2, 3, 4, 5, 6, 7, 8, 9] : List Nat).length -
        ([4, 9] : List Nat).length) + 9) / 10 ∧
    ([2, 8, 5, 7, 1] : List Nat).length =
      ([0, 1, 2, 3, 4, 5, 6, 7, 8, 9] : List Nat).length -
        ([4, 9] : List Nat).length - ([3, 0, 6] : List Nat).length :=
  c2_split_data_partition 0 [0, 1, 2, 3, 4, 5, 6, 7, 8, 9] (fun n => n % 2) 24
    [2, 8, 5, 7, 1] [3, 0, 6] [4, 9] (by decide)

/-- C8: `split_data` is deterministic: the ambient entropy a run would
fall back to when no seed is given is ignored, because the source passes
`random_state = random_seed` to both `train_test_split` calls, so two
runs over the same rows, stratification key and seed agree exactly. -/
theorem c8_split_data_deterministic {α β : Type} [DecidableEq β] (e1 e2 : Nat)
    (df : List α) (strat : α → β) (seed : Nat) :
    split_data e1 df strat seed = split_data e2 df strat seed := rfl

/-- C3: when the cache file exists and `use_cache` holds,
`get_telco_data` returns exactly the parsed cache contents, runs no query
against the data source and leaves the cache file unchanged; when
`use_cache` is false or the cache file is absent, it runs exactly the
fixed join query against the built connection url, overwrites the cache
file with contents equal to the returned table, and returns the query
result. -/
theorem c3_get_telco_data_cache_contract (env : AcqEnv) (uc : Bool) :
    (∀ t, env.cache = some t → uc = true →
      (get_telco_data uc env).table = t ∧
      (get_telco_data uc env).queries = [] ∧
      (get_telco_data uc env).cache = env.cache) ∧
    (uc = false ∨ env.cache = none →
      (get_telco_data uc env).table =
        env.source _get_telco_sql
          (get_db_url _telco_db env.username env.password env.hostname) ∧
      (get_telco_data uc env).cache = some ((get_telco_data uc env).table) ∧
      (get_telco_data uc env).queries =
        [(_get_telco_sql,
          get_db_url _telco_db env.username env.password env.hostname)]) := by
  constructor
  · intro t ht hu
    subst hu
    simp [get_telco_data, ht]
  · intro h
    rcases h with rfl | hn
    · simp [get_telco_data]
    · simp [get_telco_data, hn]

/-- C3 witness: a concrete cache hit returns the cached table with no
query, and a concrete cache miss queries the source and caches the
result. -/
theorem c3_get_telco_data_cache_contract_witness :
    ((get_telco_data true envHit).table = dfA ∧
     (get_telco_data true envHit).queries = [] ∧
     (get_telco_data true envHit).cache = envHit.cache) ∧
    ((get_telco_data false envMiss).table =
       envMiss.source _get_telco_sql
         (get_db_url _telco_db envMiss.username envMiss.password envMiss.hostname) ∧
     (get_telco_data false envMiss).cache = some ((get_telco_data false envMiss).table) ∧
     (get_telco_data false envMiss).queries =
       [(_get_telco_sql,
         get_db_url _telco_db envMiss.username envMiss.password envMiss.hostname)]) :=
  ⟨(c3_get_telco_data_cache_contract envHit true).1 dfA rfl rfl,
   (c3_get_telco_data_cache_contract envMiss false).2 (Or.inl rfl)⟩

/-- C10: whatever the index of the input column, a successful
`create_baseline_model` returns a Series carrying the fresh default
integer index `0..n-1` (it is built from a plain Python list of length
`column.size`), so element-wise comparison against a series with another
index cannot rely on label alignment. -/
theorem c10_create_baseline_model_fresh_index {α : Type} [DecidableEq α]
    (le : α → α → Bool) (column : Series α) (out : Series α)
    (h : create_baseline_model le column = some out) :
    out.index = (List.range column.size).map Int.ofNat ∧
    out.values.length = column.size := by
  unfold create_baseline_model at h
  split at h
  · cases h
  · rw [Option.some.injEq] at h
    subst h
    exact ⟨rfl, List.length_replicate _ _⟩

/-- C10 witness: a column carrying the non-default index `[5, 7]` still
yields the baseline Series with index `[0, 1]`. -/
theorem c10_create_baseline_model_fresh_index_witness :
    (⟨[0, 1], ["a", "a"]⟩ : Series String).index =
      (List.range (⟨[5, 7], ["b", "a"]⟩ : Series String).size).map Int.ofNat ∧
    (⟨[0, 1], ["a", "a"]⟩ : Series String).values.length =
      (⟨[5, 7], ["b", "a"]⟩ : Series String).size :=
  c10_create_baseline_model_fresh_index strLe ⟨[5, 7], ["b", "a"]⟩
    ⟨[0, 1], ["a", "a"]⟩ (by decide)

/-- C4 counterexample: the claim breaks ties in first-encountered order,
but pandas sorts the tied modes before `mode()[0]` picks the first.  On
the column `["b", "a"]` the first-encountered most frequent value is
`"b"`, yet the code broadcasts `"a"`. -/
theorem c4_baseline_tie_order_counterexample :
    create_baseline_model strLe tieSeries = some ⟨[0, 1], ["a", "a"]⟩ ∧
    firstEncounteredMode tieSeries.values = some "b" ∧
    ("a" : String) ≠ "b" :=
  ⟨by decide, by decide, by decide⟩

/-- C4 as amended: on every non-empty string column,
`create_baseline_model` returns the Series of length `column.size` with
the fresh default index, constantly equal to a most frequent value of the
column; ties among equally frequent values are broken by sorted order
(the returned value is the least tied mode), not first-encountered
order. -/
theorem c4_create_baseline_model_sorted_mode (col : Series String)
    (h : col.values ≠ []) :
    ∃ m, create_baseline_model strLe col =
        some ⟨(List.range col.size).map Int.ofNat, List.replicate col.size m⟩ ∧
      m ∈ col.values ∧
      (∀ v ∈ col.values, countVal col.values v ≤ countVal col.values m) ∧
      (∀ v ∈ col.values, countVal col.values v = countVal col.values m → m ≤ v) := by
  obtain ⟨w, hwl, hwc⟩ := maxCount_attained col.values h
  have hw : w ∈ seriesMode strLe col.values := by
    unfold seriesMode
    exact (List.mem_insertionSort _).mpr (mem_modeCandidates.mpr ⟨hwl, hwc⟩)
  cases hL : seriesMode strLe col.values with
  | nil => rw [hL] at hw; cases hw
  | cons m t =>
    have hhead : (seriesMode strLe col.values).head? = some m := by
      rw [hL]
      rfl
    have hmmem : m ∈ modeCandidates col.values := by
      have hmem : m ∈ seriesMode strLe col.values := by
        rw [hL]
        exact List.mem_cons_self _ _
      unfold seriesMode at hmem
      exact (List.mem_insertionSort _).mp hmem
    obtain ⟨hml, hmc⟩ := mem_modeCandidates.mp hmmem
    refine ⟨m, ?_, hml, ?_, ?_⟩
    · unfold create_baseline_model
      rw [hhead]
    · intro v hv
      rw [hmc]
      exact countVal_le_maxCount _ _ hv
    · intro v hv hvc
      have hvcand : v ∈ modeCandidates col.values :=
        mem_modeCandidates.mpr ⟨hv, by rw [hvc, hmc]⟩
      refine head_insertionSort_le (modeCandidates col.values) m ?_ v hvcand
      unfold seriesMode at hhead
      exact hhead

/-- C4 witness: on the column `["x", "x", "y"]` the baseline Series is
constant with the most frequent value. -/
theorem c4_create_baseline_model_sorted_mode_witness :
    ∃ m, create_baseline_model strLe (⟨[3, 4, 5], ["x", "x", "y"]⟩ : Series String) =
        some ⟨(List.range (⟨[3, 4, 5], ["x", "x", "y"]⟩ : Series String).size).map Int.ofNat,
          List.replicate (⟨[3, 4, 5], ["x", "x", "y"]⟩ : Series String).size m⟩ ∧
      m ∈ ["x", "x", "y"] ∧
      (∀ v ∈ ["x", "x", "y"], countVal ["x", "x", "y"] v ≤ countVal ["x", "x", "y"] m) ∧
      (∀ v ∈ ["x", "x", "y"],
        countVal ["x", "x", "y"] v = countVal ["x", "x", "y"] m → m ≤ v) :=
  c4_create_baseline_model_sorted_mode ⟨[3, 4, 5], ["x", "x", "y"]⟩ (by decide)

/-- C5 counterexample: the claim says a prediction set identical to
`y_true` scores accuracy = precision = recall = 1.  When the positive
label does not occur in `y_true`, the perfect prediction set still scores
precision 0 under the zero-division policy. -/
theorem c5_perfect_prediction_counterexample :
    (measure_model_performance ["No"] [["No"]] "Yes" none).map
        (fun rows => rows.map ScoreRow.precisionVal) = Except.ok [0] ∧
    (0 : ℚ) ≠ 1 :=
  ⟨by decide, by norm_num⟩

/-- C5 as amended: when the positive label occurs in `y_true`, a
prediction set identical to `y_true` scores accuracy = precision =
recall = 1; a prediction set that never predicts the positive label
scores precision 0 and recall 0 with no error raised (the calls return
normally with the zero-division policy mapping 0/0 to 0). -/
theorem c5_measure_model_performance_policy {α : Type} [DecidableEq α]
    (y : List α) (pos : α) (hpos : pos ∈ y) :
    measure_model_performance y [y] pos none =
      Except.ok [⟨Sum.inl 0, 1, 1, 1⟩] ∧
    (∀ p : List α, p.length = y.length → pos ∉ p →
      measure_model_performance y [p] pos none =
        Except.ok [⟨Sum.inl 0, accuracy_score y p, 0, 0⟩]) := by
  have hne : y ≠ [] := fun hc => by
    subst hc
    cases hpos
  constructor
  · rw [measure_single y y pos rfl, accuracy_score_self y hne,
      precision_score_self y pos hpos, recall_score_self y pos hpos]
  · intro p hl hp
    rw [measure_single y p pos hl.symm, precision_score_never y p pos hp,
      recall_score_never y p pos hp]

/-- C5 witness: on `y_true = ["Yes", "No"]` the identical prediction set
scores all ones, and the never-positive prediction set scores precision
and recall 0. -/
theorem c5_measure_model_performance_policy_witness :
    (measure_model_performance ["Yes", "No"] [["Yes", "No"]] "Yes" none =
      Except.ok [⟨Sum.inl 0, 1, 1, 1⟩]) ∧
    measure_model_performance ["Yes", "No"] [["No", "No"]] "Yes" none =
      Except.ok [⟨Sum.inl 0, accuracy_score ["Yes", "No"] ["No", "No"], 0, 0⟩] :=
  ⟨(c5_measure_model_performance_policy ["Yes", "No"] "Yes" (by decide)).1,
   (c5_measure_model_performance_policy ["Yes", "No"] "Yes" (by decide)).2
     ["No", "No"] (by decide) (by decide)⟩

/-- C6 counterexample: the claim calls the third classifier a
distance-weighted k-nearest-neighbor model, but the source constructs
`KNeighborsClassifier(n_neighbors=10, weights=uniform)`: on a concrete
prepared table the models dictionary holds the uniform-weighted
configuration, and uniform is not distance. -/
theorem c6_knn_uniform_weights_counterexample :
    (create_models exModelDF 24).map (fun m => m.map fun p => (p.1, entrySpec p.2)) =
      Except.ok [("Baseline", none),
        ("Decision Tree", some (Classifier.decisionTree (some 5) (some 24))),
        ("Random Forest", some (Classifier.randomForest (some 5) (some 24))),
        ("K Nearest Neighbors", some (Classifier.kNeighbors 10 "uniform"))] ∧
    ("uniform" : String) ≠ "distance" :=
  ⟨by decide, by decide⟩

/-- C6 as amended: every successful `create_models` call returns exactly
the four entries Baseline (a placeholder), a depth-5 decision tree, a
depth-5 random forest, and a 10-neighbor k-nearest-neighbor classifier
with uniform (not distance) weights, the trees seeded with the call's
random seed. -/
theorem c6_create_models_hyperparameters (df : DF) (seed : Nat)
    (m : List (String × ModelEntry)) (h : create_models df seed = Except.ok m) :
    m.map (fun p => (p.1, entrySpec p.2)) =
      [("Baseline", none),
       ("Decision Tree", some (Classifier.decisionTree (some 5) (some seed))),
       ("Random Forest", some (Classifier.randomForest (some 5) (some seed))),
       ("K Nearest Neighbors", some (Classifier.kNeighbors 10 "uniform"))] := by
  unfold create_models at h
  obtain ⟨p, hp, h⟩ := exceptBind_ok h
  rw [Except.ok.injEq] at h
  subst h
  rfl

/-- C6 witness: the concrete prepared table yields exactly the four
documented entries. -/
theorem c6_create_models_hyperparameters_witness :
    models0.map (fun p => (p.1, entrySpec p.2)) =
      [("Baseline", none),
       ("Decision Tree", some (Classifier.decisionTree (some 5) (some 24))),
       ("Random Forest", some (Classifier.randomForest (some 5) (some 24))),
       ("K Nearest Neighbors", some (Classifier.kNeighbors 10 "uniform"))] :=
  c6_create_models_hyperparameters exModelDF 24 models0 (by decide)

/-- C7 counterexample: the claim says every function other than the two
file-touching operations leaves its inputs unchanged, and in particular
that `visualize_performance_of_models` leaves the models mapping
unchanged and `make_predictions_on_test` leaves `original_df` unchanged.
On concrete inputs, `visualize_performance_of_models` overwrites the
Baseline entry of the models dictionary in place, and
`write_predictions_to_file` (called by `make_predictions_on_test`) adds
an `index` column to the customers frame in place. -/
theorem c7_inplace_mutation_counterexample :
    (visualize_performance_of_models predNo exModelDF models0).map
        (fun out => out.2.find? fun p => p.1 == "Baseline") =
      Except.ok (some ("Baseline",
        ModelEntry.series ⟨[0, 1], [Val.s "No", Val.s "No"]⟩)) ∧
    models0.find? (fun p => p.1 == "Baseline") =
      some ("Baseline", ModelEntry.noneEntry) ∧
    ModelEntry.series ⟨[0, 1], [Val.s "No", Val.s "No"]⟩ ≠ ModelEntry.noneEntry ∧
    (write_predictions_to_file exY prob0 predv0 custDF).map (fun w => w.2.header) =
      Except.ok ["customer_id", "index"] ∧
    custDF.header = ["customer_id"] ∧
    (["customer_id", "index"] : List String) ≠ ["customer_id"] :=
  ⟨by decide, by decide, by decide, by decide, by decide, by decide⟩

/-- C7 as amended: the in-place effects are confined to their named
targets.  `visualize_performance_of_models` changes the models mapping
only at the Baseline key; `write_predictions_to_file` changes the
customers frame only by storing its index into the `index` column,
preserving row identities and every other column (on well-formed
frames); and `make_predictions_on_test` changes `original_df` exactly
that same way.  Beyond these and the returned values, the only effects
are the two written files, which the embedding returns as values. -/
theorem c7_mutations_confined :
    (∀ (predict : Classifier → DF → Series Val → DF → List Val) (df : DF)
        (models models2 : List (String × ModelEntry)),
        (visualize_performance_of_models predict df models).map Prod.snd =
          Except.ok models2 →
        ∀ k, k ≠ "Baseline" →
          models2.find? (fun p => p.1 == k) = models.find? (fun p => p.1 == k)) ∧
    (∀ (y : Series Val) (prob : List (ℚ × ℚ)) (pred : List Val)
        (customers customers2 : DF),
        (write_predictions_to_file y prob pred customers).map Prod.snd =
          Except.ok customers2 →
        customers2 = customers.setCol "index"
            (customers.rows.map fun r => Val.n (r.1 : ℚ)) ∧
        customers2.rows.map Prod.fst = customers.rows.map Prod.fst ∧
        (∀ c, c ≠ "index" →
          (∀ r ∈ customers.rows, r.2.length = customers.header.length) →
          customers2.getCol c = customers.getCol c)) ∧
    (∀ (predict : Classifier → DF → Series Val → DF → List Val)
        (proba : Classifier → DF → Series Val → DF → List (ℚ × ℚ))
        (df odf : DF) (model : ModelEntry) (odf2 : DF),
        (make_predictions_on_test predict proba df odf model).map
            (fun out => out.2.2) = Except.ok odf2 →
        odf2 = odf.setCol "index" (odf.rows.map fun r => Val.n (r.1 : ℚ))) := by
  refine ⟨?_, ?_, ?_⟩
  · intro predict df models models2 h k hk
    obtain ⟨out, hout, hsnd⟩ := exceptMap_ok h
    unfold visualize_performance_of_models at hout
    obtain ⟨p, hp, hout⟩ := exceptBind_ok hout
    obtain ⟨b, hb, hout⟩ := exceptBind_ok hout
    obtain ⟨dt, hdt, hout⟩ := exceptBind_ok hout
    obtain ⟨dtp, hdtp, hout⟩ := exceptBind_ok hout
    obtain ⟨rf, hrf, hout⟩ := exceptBind_ok hout
    obtain ⟨rfp, hrfp, hout⟩ := exceptBind_ok hout
    obtain ⟨kn, hkn, hout⟩ := exceptBind_ok hout
    obtain ⟨knp, hknp, hout⟩ := exceptBind_ok hout
    obtain ⟨mets, hmets, hout⟩ := exceptBind_ok hout
    rw [Except.ok.injEq] at hout
    subst hout
    subst hsnd
    exact find?_updateEntry_ne models "Baseline" k (ModelEntry.series b) hk
  · intro y prob pred customers customers2 h
    obtain ⟨w, hw, hsnd⟩ := exceptMap_ok h
    unfold write_predictions_to_file at hw
    obtain ⟨outF, hsel, hw⟩ := exceptBind_ok hw
    rw [Except.ok.injEq] at hw
    subst hw
    subst hsnd
    refine ⟨rfl, setCol_rows_fst customers "index" (fun r => Val.n (r.1 : ℚ)), ?_⟩
    intro c hc hwf
    exact getCol_setCol_ne customers "index" c (fun r => Val.n (r.1 : ℚ)) hwf hc
  · intro predict proba df odf model odf2 h
    obtain ⟨out, hout, hproj⟩ := exceptMap_ok h
    unfold make_predictions_on_test at hout
    obtain ⟨p, hp, hout⟩ := exceptBind_ok hout
    obtain ⟨pr, hpr, hout⟩ := exceptBind_ok hout
    obtain ⟨mets, hmets, hout⟩ := exceptBind_ok hout
    obtain ⟨proba2, hproba, hout⟩ := exceptBind_ok hout
    obtain ⟨w, hwrt, hout⟩ := exceptBind_ok hout
    rw [Except.ok.injEq] at hout
    subst hout
    unfold write_predictions_to_file at hwrt
    obtain ⟨outF, hsel, hwrt⟩ := exceptBind_ok hwrt
    rw [Except.ok.injEq] at hwrt
    subst hwrt
    subst hproj
    rfl

/-- C7 witness: on the concrete run, the Decision Tree entry of the
mapping is untouched, the customer identifier column of the customers
frame is untouched, and `make_predictions_on_test` leaves `original_df`
equal to itself with exactly the `index` column added. -/
theorem c7_mutations_confined_witness :
    ((updateEntry models0 "Baseline"
        (ModelEntry.series ⟨[0, 1], [Val.s "No", Val.s "No"]⟩)).find?
        (fun p => p.1 == "Decision Tree") =
      models0.find? (fun p => p.1 == "Decision Tree")) ∧
    (custPrime.getCol "customer_id" = custDF.getCol "customer_id") ∧
    (custPrime = custDF.setCol "index" (custDF.rows.map fun r => Val.n (r.1 : ℚ))) :=
  ⟨c7_mutations_confined.1 predNo exModelDF models0
      (updateEntry models0 "Baseline"
        (ModelEntry.series ⟨[0, 1], [Val.s "No", Val.s "No"]⟩))
      (by decide) "Decision Tree" (by decide),
   (c7_mutations_confined.2.1 exY prob0 predv0 custDF custPrime (by decide)).2.2
      "customer_id" (by decide) (by decide),
   c7_mutations_confined.2.2 predNo probaHalf exModelDF custDF
      (ModelEntry.fitted (Classifier.decisionTree (some 5) (some 24)) exX exY)
      custPrime (by decide)⟩

end Telco
